import Mathlib

/-!
Shallow embedding of the orchestration core of fallingdrift/ycmd:

* `src/run_tests.py` — completer registry (`COMPLETERS`, `SIMPLE_COMPLETERS`
  merge loop), name/alias lookup (`CompleterType`), selection resolution
  (`FixupCompleters`), build planning (`BuildYcmdLibs`) and test planning
  (`PytestTests`);
* `src/ycmd/wsgi_server.py` — `StoppableWSGIServer.Run` and
  `StoppableWSGIServer.Shutdown`.

Python dicts are modelled as association lists keeping insertion order
(Python 3 dicts preserve insertion order and the planners iterate the
registry in that order); Python sets as `Finset String`; fallible code as
`Except`.
-/

/-- One value of the `COMPLETERS` dict in `run_tests.py`: build flags, test
(exclude) flags, and the optional `aliases` key.  Simple completers added by
the merge loop have no `aliases` key (`aliases = none`). -/
structure CompleterEntry where
  build : List String
  test : List String
  aliases : Option (List String)
deriving Repr, DecidableEq

/-- `SIMPLE_COMPLETERS` from `run_tests.py` (lines 64–68). -/
def SIMPLE_COMPLETERS : List String := ["clangd", "rust", "go"]

/-- The explicit `COMPLETERS` dict literal from `run_tests.py`
(lines 74–106), before the simple-completer merge loop runs. -/
def EXPLICIT_COMPLETERS : List (String × CompleterEntry) :=
  [ ("cfamily",
      ⟨["--clang-completer"], ["--ignore=ycmd/tests/clang"],
       some ["c", "cpp", "c++", "objc", "clang"]⟩),
    ("cs",
      ⟨["--cs-completer"], ["--ignore=ycmd/tests/cs"],
       some ["omnisharp", "csharp", "c#"]⟩),
    ("javascript",
      ⟨["--js-completer"], ["--ignore=ycmd/tests/tern"],
       some ["js", "tern"]⟩),
    ("typescript",
      ⟨["--ts-completer"],
       ["--ignore=ycmd/tests/javascript", "--ignore=ycmd/tests/typescript"],
       some ["ts"]⟩),
    ("python",
      ⟨[], ["--ignore=ycmd/tests/python"],
       some ["jedi", "jedihttp"]⟩),
    ("java",
      ⟨["--java-completer"], ["--ignore=ycmd/tests/java"],
       some ["jdt"]⟩) ]

/-- The dict value built by the merge loop (`run_tests.py` lines 110–113)
for a simple completer `n`: `build = ['--<n>-completer']`,
`test = ['--ignore=ycmd/tests/<n>']`, no `aliases` key. -/
def simpleEntry (n : String) : CompleterEntry :=
  ⟨["--" ++ n ++ "-completer"], ["--ignore=ycmd/tests/" ++ n], none⟩

/-- Python dict assignment `m[k] = v` on an insertion-ordered dict: an
existing key keeps its position and gets the new value; a new key is
appended at the end. -/
def dictInsert (m : List (String × CompleterEntry)) (k : String)
    (v : CompleterEntry) : List (String × CompleterEntry) :=
  if m.any (fun kv => kv.1 == k) then
    m.map (fun kv => if kv.1 == k then (k, v) else kv)
  else
    m ++ [(k, v)]

/-- The merge loop `for completer in SIMPLE_COMPLETERS: COMPLETERS[completer]
= {...}` (`run_tests.py` lines 109–113), parametrised by the simple-name
list and the starting dict. -/
def mergeCompleters (simple : List String)
    (m : List (String × CompleterEntry)) : List (String × CompleterEntry) :=
  simple.foldl (fun acc n => dictInsert acc n (simpleEntry n)) m

/-- The final `COMPLETERS` registry after the merge loop has run. -/
def COMPLETERS : List (String × CompleterEntry) :=
  mergeCompleters SIMPLE_COMPLETERS EXPLICIT_COMPLETERS

/-- `set( COMPLETERS.keys() )` — the canonical names of the registry. -/
def AllNames : Finset String := (COMPLETERS.map Prod.fst).toFinset

/-- The ways `CompleterType` can fail: a Python `KeyError` (raised while
building the alias map when an entry lacks the `aliases` key) or the
`argparse.ArgumentTypeError` of lines 126–128, carrying the invalid value. -/
inductive LookupFailure where
  | keyError (key : String)
  | argumentTypeFailure (value : String)
deriving Repr, DecidableEq

/-- The dict comprehension `{ i: k for k, v in COMPLETERS.items() for i in
v[ 'aliases' ] }` (`run_tests.py` lines 121–122).  Accessing `v['aliases']`
on an entry without that key raises `KeyError('aliases')`, aborting the
whole comprehension; entries are visited in dict order. -/
def aliasPairs : List (String × CompleterEntry) →
    Except LookupFailure (List (String × String))
  | [] => Except.ok []
  | (k, v) :: rest =>
    match v.aliases with
    | none => Except.error (LookupFailure.keyError "aliases")
    | some al =>
      match aliasPairs rest with
      | Except.error e => Except.error e
      | Except.ok tail => Except.ok (al.map (fun a => (a, k)) ++ tail)

/-- Python's `str.lower()` restricted to its ASCII action (all registry
names and aliases are ASCII), as a structurally recursive map over the
character list. -/
def pyLower (s : String) : String := ⟨s.data.map Char.toLower⟩

/-- `CompleterType` (`run_tests.py` lines 116–128): lower-case the value,
return it if it is a canonical registry key, otherwise build the alias map
and look the value up there, failing with `ArgumentTypeError` when absent.
(The alias-map construction itself can raise `KeyError`, see `aliasPairs`.) -/
def CompleterType (value : String) : Except LookupFailure String :=
  let v := pyLower value
  if COMPLETERS.any (fun kv => kv.1 == v) then
    Except.ok v
  else
    match aliasPairs COMPLETERS with
    | Except.error e => Except.error e
    | Except.ok pairs =>
      match pairs.find? (fun p => p.1 == v) with
      | some p => Except.ok p.2
      | none => Except.error (LookupFailure.argumentTypeFailure v)

deriving instance DecidableEq for Except

/-- The three mutually exclusive selection shapes of the argument parser:
`--completers` supplied (IncludeOnly), `--no-completers` supplied
(ExcludeOnly), or neither (Default). -/
inductive SelectionMode where
  | defaultMode
  | includeOnly
  | excludeOnly
deriving Repr, DecidableEq

/-- The `if`/`elif` chain of `FixupCompleters` (`run_tests.py` lines
176–184): start from all registry keys; replace with the include list, or
subtract the exclude list, or — only when neither list was supplied —
honour the deprecated `--no-clang-completer` flag by discarding `cfamily`
and printing a deprecation warning.  The second component records whether
the warning was printed. -/
def baseSelection (mode : SelectionMode) (sel : Finset String)
    (legacyDisableFlag : Bool) : Finset String × Bool :=
  match mode with
  | SelectionMode.includeOnly => (sel, false)
  | SelectionMode.excludeOnly => (AllNames \ sel, false)
  | SelectionMode.defaultMode =>
    if legacyDisableFlag then (AllNames.erase "cfamily", true)
    else (AllNames, false)

/-- The `USE_CLANG_COMPLETER` block of `FixupCompleters` (`run_tests.py`
lines 186–190): when the variable is set, the exact value `'false'`
discards `cfamily` and every other value adds it; when unset the set is
untouched. -/
def applyEnvOverride (envOverride : Option String)
    (completers : Finset String) : Finset String :=
  match envOverride with
  | none => completers
  | some v => if v = "false" then completers.erase "cfamily"
              else insert "cfamily" completers

/-- `FixupCompleters` (`run_tests.py` lines 175–192): the `if`/`elif`
selection chain followed unconditionally by the environment-override block.
Returns the resolved completer set and whether the deprecation warning was
printed. -/
def FixupCompleters (mode : SelectionMode) (sel : Finset String)
    (legacyDisableFlag : Bool) (envOverride : Option String) :
    Finset String × Bool :=
  let b := baseSelection mode sel legacyDisableFlag
  (applyEnvOverride envOverride b.1, b.2)

/-- Fold that mirrors a Python `for` loop doing
`if q(x): acc.extend(g(x))` over a list, rewritten as filter-then-concat. -/
theorem foldl_extend {α : Type} (g : α → List String) (q : α → Prop)
    [DecidablePred q] (l : List α) (acc : List String) :
    l.foldl (fun a x => if q x then a ++ g x else a) acc
      = acc ++ (l.filter (fun x => decide (q x))).flatMap g := by
  induction l generalizing acc with
  | nil => simp
  | cons x xs ih =>
    by_cases hx : q x <;>
      simp [List.foldl_cons, List.filter_cons, hx, ih, List.append_assoc]

/-- `BASE_PYTEST_ARGS` (`run_tests.py` line 12). -/
def BASE_PYTEST_ARGS : List String := ["-v", "--color=yes"]

/-- The exclude-flag loop of `PytestTests` (`run_tests.py` lines 262–264):
`for key in COMPLETERS: if key not in parsed_args.completers:
pytests_args.extend( COMPLETERS[ key ][ 'test' ] )`. -/
def pytestExcludeFlags (sel : Finset String) : List String :=
  COMPLETERS.foldl
    (fun acc kv => if kv.1 ∉ sel then acc ++ kv.2.test else acc) []

/-- The full pytest argument vector of `PytestTests` (`run_tests.py` lines
259–274): the base args, the exclude-flag loop, the coverage additions, and
the caller-supplied extra args or the default scan root. -/
def PytestTests (sel : Finset String) (coverage : Bool)
    (extraPytestsArgs : List String) (scanRoot : String) : List String :=
  BASE_PYTEST_ARGS ++ pytestExcludeFlags sel
    ++ (if coverage then ["--ignore=ycmd/tests/python/testdata", "--cov=ycmd"]
        else [])
    ++ (if extraPytestsArgs.isEmpty then [scanRoot] else extraPytestsArgs)

/-- The build command constructed by `BuildYcmdLibs` (`run_tests.py` lines
202–223) when the build is not skipped: the executable, the build script and
`--core-tests`, then each selected completer's build flags in registry
iteration order, then the msvc selector (Python `if args.msvc:` — int
truthiness), the coverage flags and the quiet flag.  `exe` and `script`
stand for the runtime values `sys.executable` and the path of `build.py`. -/
def buildCmd (exe script : String) (sel : Finset String) (msvc : Nat)
    (coverage quiet : Bool) : List String :=
  let cmd := [exe, script, "--core-tests"]
  let cmd := COMPLETERS.foldl
    (fun acc kv => if kv.1 ∈ sel then acc ++ kv.2.build else acc) cmd
  let cmd := cmd ++ (if msvc ≠ 0 then ["--msvc", toString msvc] else [])
  let cmd := cmd ++ (if coverage then ["--enable-coverage", "--build-dir", ".build"]
                     else [])
  cmd ++ (if quiet then ["--quiet"] else [])

/-- State of a `StoppableWSGIServer` (`src/ycmd/wsgi_server.py`): the
`shutdown_requested` flag (line 28), whether the waitress task dispatcher is
still running, and the asyncore `_map` of open connection channels
(modelled by their ids, in map order). -/
structure ServerSt where
  shutdown_requested : Bool
  dispatcherRunning : Bool
  channels : List Nat
deriving Repr, DecidableEq

/-- How the underlying `TcpWSGIServer.run()` loop exits: normally, or by
raising `select.error`. -/
inductive RunExit where
  | normal
  | selectInterrupt
deriving Repr, DecidableEq

/-- `StoppableWSGIServer.Run` (`wsgi_server.py` lines 30–44), given the
value of `shutdown_requested` at the moment the loop exits and the way it
exits: a `select.error` is re-raised unchanged when shutdown was not
requested and swallowed when it was. -/
def Run (shutdown_requested : Bool) (exitCond : RunExit) :
    Except RunExit Unit :=
  match exitCond with
  | RunExit.normal => Except.ok ()
  | RunExit.selectInterrupt =>
    if shutdown_requested then Except.ok ()
    else Except.error RunExit.selectInterrupt

/-- The observable steps of `StoppableWSGIServer.Shutdown`, in the order the
method performs them. -/
inductive ShutdownEvent where
  | setShutdownRequested
  | dispatcherShutdown
  | closeChannel (c : Nat)
deriving Repr, DecidableEq

/-- `channel.close()`: the channel removes itself from the live `_map`
(this mutation while looping is why line 57 iterates over
`list( self._map.values() )`, a snapshot). -/
def closeChannel (s : ServerSt) (c : Nat) : ServerSt :=
  { s with channels := s.channels.filter (fun x => decide (x ≠ c)) }

/-- `StoppableWSGIServer.Shutdown` (`wsgi_server.py` lines 47–58): set
`shutdown_requested`, shut the task dispatcher down, then close every
channel of a snapshot (`list( self._map.values() )`) taken after those two
steps.  Returns the final state and the ordered event trace. -/
def Shutdown (s : ServerSt) : ServerSt × List ShutdownEvent :=
  let s1 : ServerSt := { s with shutdown_requested := true }
  let s2 : ServerSt := { s1 with dispatcherRunning := false }
  let snapshot := s2.channels
  (snapshot.foldl closeChannel s2,
   ShutdownEvent.setShutdownRequested :: ShutdownEvent.dispatcherShutdown ::
     snapshot.map ShutdownEvent.closeChannel)

/-- The spec's `Stopped` server state: shutdown was requested, the
dispatcher is halted, and no connection channel remains open. -/
def Stopped (s : ServerSt) : Prop :=
  s.shutdown_requested = true ∧ s.dispatcherRunning = false ∧ s.channels = []

/-- Folding `closeChannel` over a list of channels filters them all out of
the live map and touches nothing else. -/
theorem foldl_closeChannel (l : List Nat) (s : ServerSt) :
    l.foldl closeChannel s
      = { s with channels := s.channels.filter (fun x => decide (x ∉ l)) } := by
  induction l generalizing s with
  | nil => simp
  | cons c cs ih =>
    rw [List.foldl_cons, ih]
    simp only [closeChannel, List.filter_filter]
    congr 1
    apply List.filter_congr
    intro x _
    by_cases hc : x = c <;> by_cases hm : x ∈ cs <;> simp [hc, hm]

/-- C1: `CompleterType` does return the canonical name for canonical inputs
(case-insensitively), but for every input that is not a canonical name —
including the registered alias `"c"` of `cfamily` and the invalid name
`"bogus"` — it raises `KeyError('aliases')` while building the alias map
(the simple completers lack the `aliases` key), never reaching the
`ArgumentTypeError` branch.  This contradicts the claim, whose intent the
code's own comments document (`aliases?` is optional, simple completers
have "no aliases"). -/
theorem completerType_keyError_on_aliases :
    CompleterType "cfamily" = Except.ok "cfamily" ∧
    CompleterType "CFAMILY" = Except.ok "cfamily" ∧
    CompleterType "c" = Except.error (LookupFailure.keyError "aliases") ∧
    CompleterType "bogus" = Except.error (LookupFailure.keyError "aliases") :=
  ⟨by decide, by decide, by decide, by decide⟩

/-- C2: the `USE_CLANG_COMPLETER` override is applied last in
`FixupCompleters`, so for every mode, selection set and legacy-flag value a
set variable other than `'false'` forces `cfamily` in and the value
`'false'` forces it out; concretely, IncludeOnly `{"go"}` with the override
set (enable) resolves to exactly `{"go", "cfamily"}`. -/
theorem resolve_env_override_precedence (mode : SelectionMode)
    (sel : Finset String) (legacy : Bool) (v : String) (h : v ≠ "false") :
    "cfamily" ∈ (FixupCompleters mode sel legacy (some v)).1 ∧
    "cfamily" ∉ (FixupCompleters mode sel legacy (some "false")).1 ∧
    (FixupCompleters SelectionMode.includeOnly {"go"} false (some v)).1
      = {"go", "cfamily"} := by
  refine ⟨?_, ?_, ?_⟩
  · simp [FixupCompleters, applyEnvOverride, h]
  · simp [FixupCompleters, applyEnvOverride]
  · have hv : (FixupCompleters SelectionMode.includeOnly {"go"} false
        (some v)).1 = insert "cfamily" {"go"} := by
      simp [FixupCompleters, baseSelection, applyEnvOverride, h]
    rw [hv]
    decide

/-- Witness for C2 at mode = Default, sel = ∅, legacy = false, v = "true". -/
theorem resolve_env_override_precedence_witness :
    ("true" : String) ≠ "false" ∧
    ("cfamily" ∈
        (FixupCompleters SelectionMode.defaultMode ∅ false (some "true")).1 ∧
     "cfamily" ∉
        (FixupCompleters SelectionMode.defaultMode ∅ false (some "false")).1 ∧
     (FixupCompleters SelectionMode.includeOnly {"go"} false (some "true")).1
       = {"go", "cfamily"}) :=
  ⟨by decide,
   resolve_env_override_precedence SelectionMode.defaultMode ∅ false "true"
     (by decide)⟩

/-- C3 counterexample: with the legacy disable flag set but an include list
supplied (IncludeOnly `{"cfamily"}`, no env override), `FixupCompleters`
keeps `cfamily` and prints no warning — the legacy-flag step is an `elif`
alternative, not a pipeline stage applied in every mode as the claim
states. -/
theorem legacy_flag_counterexample :
    "cfamily" ∈
      (FixupCompleters SelectionMode.includeOnly {"cfamily"} true none).1 ∧
    (FixupCompleters SelectionMode.includeOnly {"cfamily"} true none).2
      = false :=
  ⟨by decide, by decide⟩

/-- C3 amended: when the legacy disable flag is set and no include/exclude
list was supplied (Default mode), `FixupCompleters` removes `cfamily` from
the defaults and emits the deprecation warning; in IncludeOnly and
ExcludeOnly modes the legacy flag has no effect at all (the CLI declares
the three options mutually exclusive, so those combinations cannot arise
from a command line). -/
theorem legacy_flag_default_mode_only (sel : Finset String)
    (env : Option String) :
    FixupCompleters SelectionMode.defaultMode sel true none
      = (AllNames.erase "cfamily", true) ∧
    (FixupCompleters SelectionMode.defaultMode sel true env).2 = true ∧
    FixupCompleters SelectionMode.includeOnly sel true env
      = FixupCompleters SelectionMode.includeOnly sel false env ∧
    FixupCompleters SelectionMode.excludeOnly sel true env
      = FixupCompleters SelectionMode.excludeOnly sel false env :=
  ⟨rfl, rfl, rfl, rfl⟩

/-- C4: for every mode, legacy flag and env override, and every selection
set drawn from the registry keys, the resolved selection stays inside the
registry keys. -/
theorem resolve_subset_allNames (mode : SelectionMode) (sel : Finset String)
    (legacy : Bool) (env : Option String) (h : sel ⊆ AllNames) :
    (FixupCompleters mode sel legacy env).1 ⊆ AllNames := by
  have hcf : "cfamily" ∈ AllNames := by decide
  have hbase : (baseSelection mode sel legacy).1 ⊆ AllNames := by
    cases mode with
    | includeOnly => exact h
    | excludeOnly => exact Finset.sdiff_subset
    | defaultMode =>
      by_cases hl : legacy
      · simpa [baseSelection, hl] using Finset.erase_subset "cfamily" AllNames
      · simp [baseSelection, hl]
  show applyEnvOverride env (baseSelection mode sel legacy).1 ⊆ AllNames
  cases env with
  | none => exact hbase
  | some v =>
    by_cases hv : v = "false"
    · simpa [applyEnvOverride, hv] using
        (Finset.erase_subset "cfamily" _).trans hbase
    · simpa [applyEnvOverride, hv] using Finset.insert_subset hcf hbase

/-- Witness for C4 at IncludeOnly `{"go"}`, env override enabled. -/
theorem resolve_subset_allNames_witness :
    ({"go"} : Finset String) ⊆ AllNames ∧
    (FixupCompleters SelectionMode.includeOnly {"go"} false (some "true")).1
      ⊆ AllNames :=
  ⟨by decide,
   resolve_subset_allNames SelectionMode.includeOnly {"go"} false
     (some "true") (by decide)⟩

/-- C5 counterexample: merging a simple entry whose name collides with the
explicit entry `cfamily` does not fail — it produces a registry in which
the simple convention-derived entry has silently replaced the explicit one
(aliases dropped), with the other five explicit entries untouched. -/
theorem merge_collision_counterexample :
    mergeCompleters ["cfamily"] EXPLICIT_COMPLETERS
      = ("cfamily", simpleEntry "cfamily") :: EXPLICIT_COMPLETERS.tail ∧
    (mergeCompleters ["cfamily"] EXPLICIT_COMPLETERS).find?
      (fun kv => kv.1 == "cfamily") = some ("cfamily", simpleEntry "cfamily") :=
  ⟨by decide, by decide⟩

/-- C5 amended: every simple entry `n` gets build flags exactly
`['--<n>-completer']` and exactly the one test-ignore path
`'--ignore=ycmd/tests/<n>'` in the merged registry; on a name collision
construction does not fail with a configuration error but silently
overwrites the explicit entry with the simple one, keeping the same key
sequence. -/
theorem merge_simple_entries :
    (∀ n ∈ SIMPLE_COMPLETERS,
      COMPLETERS.find? (fun kv => kv.1 == n) = some (n, simpleEntry n)) ∧
    (mergeCompleters ["cfamily"] EXPLICIT_COMPLETERS).map Prod.fst
      = EXPLICIT_COMPLETERS.map Prod.fst := by
  exact ⟨by decide, by decide⟩

/-- Witness for C5's amended theorem at the simple completer "go". -/
theorem merge_simple_entries_witness :
    "go" ∈ SIMPLE_COMPLETERS ∧
    COMPLETERS.find? (fun kv => kv.1 == "go") = some ("go", simpleEntry "go") :=
  ⟨by decide, merge_simple_entries.1 "go" (by decide)⟩

/-- C6: a flag string appears in the exclude-flag portion of the pytest
argument vector exactly when it is one of the test-exclude flags of a
registry completer that is not in the resolved selection. -/
theorem pytest_exclude_complement (sel : Finset String) (h : sel ⊆ AllNames)
    (f : String) :
    f ∈ pytestExcludeFlags sel ↔
      ∃ kv ∈ COMPLETERS, kv.1 ∉ sel ∧ f ∈ kv.2.test := by
  have he : COMPLETERS.foldl
      (fun acc kv => if kv.1 ∉ sel then acc ++ kv.2.test else acc) []
      = [] ++ (COMPLETERS.filter (fun kv => decide (kv.1 ∉ sel))).flatMap
          (fun kv => kv.2.test) :=
    foldl_extend (fun kv => kv.2.test) (fun kv => kv.1 ∉ sel) COMPLETERS []
  unfold pytestExcludeFlags
  rw [he]
  simp [List.mem_flatMap, List.mem_filter, and_assoc]

/-- Witness for C6 with selection `{"go"}` and cfamily's exclude flag. -/
theorem pytest_exclude_complement_witness :
    ({"go"} : Finset String) ⊆ AllNames ∧
    ("--ignore=ycmd/tests/clang" ∈ pytestExcludeFlags {"go"} ↔
      ∃ kv ∈ COMPLETERS, kv.1 ∉ ({"go"} : Finset String) ∧
        "--ignore=ycmd/tests/clang" ∈ kv.2.test) :=
  ⟨by decide,
   pytest_exclude_complement {"go"} (by decide) "--ignore=ycmd/tests/clang"⟩

/-- C7: the build plan is a pure function of its inputs — two invocations
with the same arguments are identical — and the vector is the fixed prefix,
then each selected completer's build flags in registry iteration order,
then the msvc selector, coverage flags and quiet flag. -/
theorem buildCmd_deterministic (exe script : String) (sel : Finset String)
    (msvc : Nat) (coverage quiet : Bool) :
    buildCmd exe script sel msvc coverage quiet
      = buildCmd exe script sel msvc coverage quiet ∧
    buildCmd exe script sel msvc coverage quiet
      = [exe, script, "--core-tests"]
        ++ (COMPLETERS.filter (fun kv => decide (kv.1 ∈ sel))).flatMap
             (fun kv => kv.2.build)
        ++ (if msvc ≠ 0 then ["--msvc", toString msvc] else [])
        ++ (if coverage then ["--enable-coverage", "--build-dir", ".build"]
            else [])
        ++ (if quiet then ["--quiet"] else []) := by
  refine ⟨rfl, ?_⟩
  have he : COMPLETERS.foldl
      (fun acc kv => if kv.1 ∈ sel then acc ++ kv.2.build else acc)
      [exe, script, "--core-tests"]
      = [exe, script, "--core-tests"]
        ++ (COMPLETERS.filter (fun kv => decide (kv.1 ∈ sel))).flatMap
            (fun kv => kv.2.build) :=
    foldl_extend (fun kv => kv.2.build) (fun kv => kv.1 ∈ sel) COMPLETERS _
  simp only [buildCmd]
  rw [he]

/-- C8: when the serve loop exits through `select.error`, `Run` re-raises
the identical interrupt if shutdown was not requested and swallows it
(returning normally) if shutdown was requested. -/
theorem run_interrupt_classification :
    Run false RunExit.selectInterrupt = Except.error RunExit.selectInterrupt ∧
    Run true RunExit.selectInterrupt = Except.ok () ∧
    Run false RunExit.normal = Except.ok () ∧
    Run true RunExit.normal = Except.ok () :=
  ⟨rfl, rfl, rfl, rfl⟩

/-- C9: `Shutdown` performs, in order, the `shutdown_requested` flag set,
the dispatcher shutdown, and one close per channel of the snapshot taken
before the closing loop (in snapshot order); afterwards the server is
Stopped — flag set, dispatcher halted, no open channel left. -/
theorem shutdown_sequence (s : ServerSt) :
    (Shutdown s).2
      = ShutdownEvent.setShutdownRequested :: ShutdownEvent.dispatcherShutdown
          :: s.channels.map ShutdownEvent.closeChannel ∧
    Stopped (Shutdown s).1 := by
  constructor
  · rfl
  · simp only [Shutdown, Stopped]
    rw [foldl_closeChannel]
    refine ⟨rfl, rfl, ?_⟩
    simp

/-- C10: setting `USE_CLANG_COMPLETER` to any value other than the exact
string `'false'` yields exactly the unset-variable result plus `cfamily`;
the exact value `'false'` yields the unset-variable result minus `cfamily`;
an unset variable leaves the set unchanged by the override step. -/
theorem env_override_only_false (v : String) (h : v ≠ "false")
    (mode : SelectionMode) (sel : Finset String) (legacy : Bool) :
    (FixupCompleters mode sel legacy (some v)).1
      = insert "cfamily" (FixupCompleters mode sel legacy none).1 ∧
    (FixupCompleters mode sel legacy (some "false")).1
      = ((FixupCompleters mode sel legacy none).1).erase "cfamily" ∧
    applyEnvOverride none (FixupCompleters mode sel legacy none).1
      = (FixupCompleters mode sel legacy none).1 := by
  refine ⟨?_, rfl, rfl⟩
  simp [FixupCompleters, applyEnvOverride, h]

/-- Witness for C10 at v = "False" (differs from 'false' only in case). -/
theorem env_override_only_false_witness :
    ("False" : String) ≠ "false" ∧
    (FixupCompleters SelectionMode.defaultMode ∅ false (some "False")).1
      = insert "cfamily"
          (FixupCompleters SelectionMode.defaultMode ∅ false none).1 :=
  ⟨by decide,
   (env_override_only_false "False" (by decide) SelectionMode.defaultMode ∅
     false).1⟩
